import Mathlib

/-!
# Order lifecycle and payment reconciliation: a shallow embedding

This file embeds the decision logic of the M&H Distributions order backend:

* `src/server.js` — the file-backed variant (`POST /api/orders`), embedded in
  namespace `FileServer`;
* the Mongoose-backed server contained in `src/services/emailService.js`
  (`POST /api/process-payment`, `GET /api/orders`,
  `PATCH /api/orders/:orderId/status`), embedded in namespace `MongoApp`;
* `src/controllers/orderController.js` (`createOrder`, `updateOrderStatus`),
  embedded in namespace `OrderController`;
* the Mongoose `Order` schema of `src/models/Order.js` together with the store
  operations the handlers use, embedded in namespace `Mongo`.

JavaScript values that matter to the control flow (truthiness, string→number
coercion, `NaN`) are modelled explicitly.  The payment gateway is an external
collaborator: each handler takes the gateway's outcome as an input and reports
the charge request it issued (so "no charge attempted" is expressible).
-/

namespace MH

/-- A JavaScript number as it arises on the modelled paths: a rational,
`NaN`, or a signed infinity (from `Number("Infinity")` or division). -/
inductive JsNum where
  | nan : JsNum
  | inf : JsNum
  | negInf : JsNum
  | num : ℚ → JsNum
deriving DecidableEq, Repr

/-- JavaScript subtraction `a - b` on `JsNum`. -/
def jsSub : JsNum → JsNum → JsNum
  | .num a, .num b => .num (a - b)
  | .nan, _ => .nan
  | _, .nan => .nan
  | .inf, .inf => .nan
  | .inf, _ => .inf
  | .negInf, .negInf => .nan
  | .negInf, _ => .negInf
  | .num _, .inf => .negInf
  | .num _, .negInf => .inf

/-- JavaScript multiplication `a * b` on `JsNum`. -/
def jsMul : JsNum → JsNum → JsNum
  | .nan, _ => .nan
  | _, .nan => .nan
  | .num a, .num b => .num (a * b)
  | .inf, .inf => .inf
  | .inf, .negInf => .negInf
  | .negInf, .inf => .negInf
  | .negInf, .negInf => .inf
  | .inf, .num q => if q = 0 then .nan else if 0 < q then .inf else .negInf
  | .num q, .inf => if q = 0 then .nan else if 0 < q then .inf else .negInf
  | .negInf, .num q => if q = 0 then .nan else if 0 < q then .negInf else .inf
  | .num q, .negInf => if q = 0 then .nan else if 0 < q then .negInf else .inf

/-- `Math.ceil(total / limit)` for a natural `total` and a `JsNum` limit,
following JavaScript division (`x/0` is a signed infinity, `0/0` is `NaN`). -/
def jsCeilDivNat (total : ℕ) : JsNum → JsNum
  | .nan => .nan
  | .inf => .num 0
  | .negInf => .num 0
  | .num q =>
    if q = 0 then (if total = 0 then .nan else .inf)
    else .num ((⌈(total : ℚ) / q⌉ : ℤ) : ℚ)

/-- The natural number denoted by a `JsNum`, when it is a nonnegative
integer; `none` otherwise (`NaN`, infinities, negative or fractional values
are outside the modelled store semantics). -/
def JsNum.asNat? : JsNum → Option ℕ
  | .num q => if q.den = 1 ∧ 0 ≤ q.num then some q.num.toNat else none
  | _ => none

/-- JavaScript truthiness of a possibly-absent string: `undefined` and the
empty string are falsy. -/
def truthyStr : Option String → Bool
  | none => false
  | some s => !s.isEmpty

/-- JavaScript truthiness of a possibly-absent number: `undefined` and `0`
are falsy. -/
def truthyNum : Option ℚ → Bool
  | none => false
  | some q => q != 0

/-- `Math.round` on a rational: round half towards positive infinity. -/
def jsRound (q : ℚ) : ℤ := ⌊q + 1 / 2⌋

/-- JavaScript whitespace, in the forms that matter here. -/
def jsWhitespace (c : Char) : Bool :=
  c = ' ' || c = '\t' || c = '\n' || c = '\r'

/-- `String.prototype.trim`, on the character list of a string. -/
def trimChars (l : List Char) : List Char :=
  ((l.dropWhile jsWhitespace).reverse.dropWhile jsWhitespace).reverse

/-- The natural number denoted by a nonempty all-digit character list. -/
def digits? (l : List Char) : Option ℕ :=
  match l with
  | [] => none
  | _ =>
    l.foldl
      (fun acc c =>
        match acc with
        | some a => if c.isDigit then some (a * 10 + (c.toNat - 48)) else none
        | none => none)
      (some 0)

/-- Split a character list at `'.'` boundaries. -/
def splitDot : List Char → List (List Char)
  | [] => [[]]
  | c :: rest =>
    match splitDot rest with
    | [] => [[]]
    | seg :: segs => if c = '.' then [] :: seg :: segs else (c :: seg) :: segs

/-- Decimal-literal part of JavaScript `ToNumber`: digits with an optional
fractional part. -/
def parseDecimal (t : List Char) : Option ℚ :=
  match splitDot t with
  | [a] => (digits? a).map (fun n => (n : ℚ))
  | [a, b] =>
    let ai := if a.isEmpty then some 0 else digits? a
    let bi := if b.isEmpty then some 0 else digits? b
    match ai, bi with
    | some x, some y => some ((x : ℚ) + (y : ℚ) / (10 : ℚ) ^ b.length)
    | _, _ => none
  | _ => none

/-- JavaScript `ToNumber` on a string, for the forms that reach the modelled
handlers: trimmed decimal literals (optionally signed), the empty string
(`0`), `Infinity`, and everything else `NaN`. -/
def jsToNumber (s : String) : JsNum :=
  let t := trimChars s.data
  if t.isEmpty then .num 0
  else if t = "Infinity".data then .inf
  else if t = "-Infinity".data then .negInf
  else
    match t with
    | '-' :: rest =>
      match parseDecimal rest with
      | some q => .num (-q)
      | none => .nan
    | _ =>
      match parseDecimal t with
      | some q => .num q
      | none => .nan

/-- Outcome of `squareClient.paymentsApi.createPayment`.
Modelled from the spec: `src/config/square` (required by
`orderController.js`) is not part of the repository; §4.2 of the spec gives
the adapter contract `charge -> ChargeResult | ChargeError`.  `ok` is a
resolved result carrying `payment.id`, `payment.orderId` and
`payment.status`; `err` is a raised error carrying `message` and an optional
`errors` detail list. -/
inductive GatewayOutcome where
  | ok (paymentId : String) (orderRef : Option String) (status : String) : GatewayOutcome
  | err (message : String) (details : List String) : GatewayOutcome
deriving DecidableEq, Repr

/-- The charge request a handler hands to the gateway (the fields the claims
inspect). -/
structure GwCall where
  sourceId : Option String
  amountCents : JsNum
  idempotencyKey : String
deriving DecidableEq, Repr

end MH

namespace FileServer

open MH

/-- A line-item object as passed through `src/server.js` (`products`); the
handler never inspects it. -/
structure Item where
  name : Option String
  price : Option ℚ
  quantity : Option ℚ
  description : Option String
deriving DecidableEq, Repr

/-- The `customerDetails` object of a `src/server.js` request body. -/
structure CustomerDetails where
  firstName : Option String
  lastName : Option String
  email : Option String
  phone : Option String
  address : Option String
  city : Option String
  state : Option String
  zipCode : Option String
deriving DecidableEq, Repr

/-- `customerDetails = {}`: the destructuring default of `src/server.js`. -/
def emptyDetails : CustomerDetails :=
  ⟨none, none, none, none, none, none, none, none⟩

/-- Body of `POST /api/orders` in `src/server.js` (line 142): each field may
be absent; the handler's destructuring supplies defaults. -/
structure FRequest where
  total : Option ℚ
  items : Option ℚ
  customer : Option String
  products : Option (List Item)
  customerDetails : Option CustomerDetails
  paymentToken : Option String
deriving DecidableEq, Repr

/-- The order object built at `src/server.js` line 196. -/
structure FOrder where
  id : String
  orderNumber : String
  squareOrderId : String
  total : ℚ
  items : ℚ
  customer : String
  customerDetails : CustomerDetails
  products : List Item
  status : String
  paymentStatus : String
  fulfillmentStatus : String
  shippingStatus : String
  notes : String
  createdAt : ℕ
  updatedAt : ℕ
deriving DecidableEq, Repr

/-- The mutable module state of `src/server.js`: the in-memory `orders`
array (mirrored to `orders.json`) and `orderIdCounter`. -/
structure FileState where
  orders : List FOrder
  counter : ℕ
deriving DecidableEq, Repr

/-- Response of `POST /api/orders` in `src/server.js`: HTTP status plus the
JSON fields the claims inspect. -/
structure FResp where
  status : ℕ
  success : Bool
  error : Option String
  message : Option String
deriving DecidableEq, Repr

/-- `POST /api/orders` of `src/server.js` (lines 137–237).  `now` is
`Date.now()` at handler entry; `gw` the gateway outcome; `emailOutcome`
whether `resend.emails.send` would succeed (the call at line 216 is issued
without `await` and `sendOrderConfirmationEmail` catches its own failures,
so the handler's result may not depend on it).  Returns the new state, the
charge request issued (if any), and the response. -/
def postOrders (now : ℕ) (req : FRequest) (gw : GatewayOutcome)
    (emailOutcome : Bool) (st : FileState) :
    FileState × Option GwCall × FResp :=
  let total := req.total.getD 0
  let items := req.items.getD 0
  let customer := req.customer.getD "unknown@customer.com"
  let products := req.products.getD []
  let customerDetails := req.customerDetails.getD emptyDetails
  if !truthyStr req.paymentToken then
    (st, none, ⟨400, false, some "Payment token is required", none⟩)
  else
    let call : GwCall :=
      { sourceId := req.paymentToken
        amountCents := .num ((jsRound (total * 100) : ℤ) : ℚ)
        idempotencyKey := "order-" ++ Nat.repr now }
    match gw with
    | .err msg _details =>
      (st, some call, ⟨400, false, some ("Payment failed: " ++ msg), none⟩)
    | .ok _paymentId _orderRef _status =>
      let order : FOrder :=
        { id := "MHD-" ++ Nat.repr st.counter
          orderNumber := "ORD-" ++ Nat.repr now
          squareOrderId := "sq-" ++ Nat.repr now
          total := total
          items := items
          customer := customer
          customerDetails := customerDetails
          products := products
          status := "pending"
          paymentStatus := "paid"
          fulfillmentStatus := "unfulfilled"
          shippingStatus := "not_shipped"
          notes := ""
          createdAt := now
          updatedAt := now }
      ({ orders := st.orders ++ [order], counter := st.counter + 1 },
       some call,
       ⟨200, true, none, some "Order processed successfully"⟩)

end FileServer

namespace Mongo

open MH

/-- `customerInfo` of the `Order` schema (`src/models/Order.js` lines 5–15):
eight required string paths and `country` with default `'US'`. -/
structure MCustomerInfo where
  firstName : Option String
  lastName : Option String
  email : Option String
  phone : Option String
  address : Option String
  city : Option String
  state : Option String
  zipCode : Option String
  country : Option String
deriving DecidableEq, Repr

/-- Mongoose `required` on a String path fails on `undefined`, `null` and
the empty string, i.e. it is a truthiness check. -/
def MCustomerInfo.valid (c : MCustomerInfo) : Bool :=
  truthyStr c.firstName && truthyStr c.lastName && truthyStr c.email &&
  truthyStr c.phone && truthyStr c.address && truthyStr c.city &&
  truthyStr c.state && truthyStr c.zipCode

/-- An `items` entry of the `Order` schema (lines 27–32): `name`, `price`,
`quantity` required. -/
structure MItem where
  name : Option String
  price : Option ℚ
  quantity : Option ℚ
  description : Option String
deriving DecidableEq, Repr

/-- Mongoose `required` on a Number path fails only on `undefined`/`null`. -/
def MItem.valid (i : MItem) : Bool :=
  truthyStr i.name && i.price.isSome && i.quantity.isSome

/-- `paymentInfo` of the `Order` schema (lines 16–26). -/
structure MPaymentInfo where
  squarePaymentToken : Option String
  squareOrderId : Option String
  amount : Option ℚ
  currency : String
  paymentStatus : String
deriving DecidableEq, Repr

/-- The `paymentStatus` enumeration of the schema (line 23). -/
def paymentStatusEnum : List String := ["pending", "paid", "failed", "refunded"]

/-- The `orderStatus` enumeration of the schema (line 35), also the
`validStatuses` list of the PATCH handler (`src/services/emailService.js`
line 243). -/
def orderStatusEnum : List String :=
  ["pending", "paid", "processing", "fulfilled", "cancelled", "shipped", "delivered"]

def MPaymentInfo.valid (p : MPaymentInfo) : Bool :=
  truthyStr p.squarePaymentToken && p.amount.isSome &&
  paymentStatusEnum.contains p.paymentStatus

/-- `shippingAddress` of the `Order` schema (lines 39–46); no field
required. -/
structure MShipAddr where
  firstName : Option String
  lastName : Option String
  address : Option String
  city : Option String
  state : Option String
  zipCode : Option String
deriving DecidableEq, Repr

/-- A stored `Order` document.  `oid` stands for the Mongo `_id`. -/
structure MOrder where
  oid : ℕ
  orderNumber : String
  customerInfo : MCustomerInfo
  paymentInfo : MPaymentInfo
  items : List MItem
  orderStatus : String
  trackingNumber : Option String
  shippingAddress : Option MShipAddr
  notes : Option String
  createdAt : ℕ
  updatedAt : ℕ
deriving DecidableEq, Repr

/-- Schema validation run by `document.save()`: required paths and the two
status enumerations (`src/models/Order.js`). -/
def MOrder.validDoc (o : MOrder) : Bool :=
  !o.orderNumber.isEmpty && o.customerInfo.valid && o.paymentInfo.valid &&
  o.items.all MItem.valid && orderStatusEnum.contains o.orderStatus

/-- `order.save()`: runs schema validation, then inserts subject to the
unique index on `orderNumber` (line 4 of the schema); a violation is an
`E11000` duplicate-key error, never an overwrite. -/
def mongoCreate (o : MOrder) (st : List MOrder) : Except String (List MOrder) :=
  if !o.validDoc then .error "Order validation failed"
  else if st.any (fun e => e.orderNumber == o.orderNumber) then
    .error "E11000 duplicate key error"
  else .ok (st ++ [o])

/-- The update object both status handlers pass to `findByIdAndUpdate`:
`orderStatus`, conditionally-spread `trackingNumber`/`notes`, `updatedAt`. -/
structure StatusPatch where
  orderStatus : String
  trackingNumber : Option String
  notes : Option String
  updatedAt : ℕ
deriving DecidableEq, Repr

/-- `{ orderStatus: status, ...(trackingNumber && { trackingNumber }),
...(notes && { notes }), updatedAt: new Date() }`: the optional keys are
spread in only when truthy. -/
def mkStatusPatch (status : String) (trackingNumber notes : Option String)
    (now : ℕ) : StatusPatch :=
  { orderStatus := status
    trackingNumber := if truthyStr trackingNumber then trackingNumber else none
    notes := if truthyStr notes then notes else none
    updatedAt := now }

/-- `$set` of a `StatusPatch` on a document.  Neither handler passes
`runValidators`, so Mongoose applies the update without re-running the
schema's enum validation. -/
def applyStatusPatch (p : StatusPatch) (o : MOrder) : MOrder :=
  { o with
    orderStatus := p.orderStatus
    trackingNumber := match p.trackingNumber with
      | some v => some v
      | none => o.trackingNumber
    notes := match p.notes with
      | some v => some v
      | none => o.notes
    updatedAt := p.updatedAt }

/-- `findByIdAndUpdate(id, patch, { new: true })`: update the (unique)
document with the given `_id` in place and return it post-update; `none`
when no document matches. -/
def updateById (oid : ℕ) (f : MOrder → MOrder) :
    List MOrder → List MOrder × Option MOrder
  | [] => ([], none)
  | o :: rest =>
    if o.oid = oid then (f o :: rest, some (f o))
    else
      let r := updateById oid f rest
      (o :: r.1, r.2)

/-- The filter `status ? { orderStatus: status } : {}` of the list
handlers: a falsy (absent or empty) `status` query matches everything. -/
def matchesFilter (statusQ : Option String) (o : MOrder) : Bool :=
  if truthyStr statusQ then o.orderStatus == statusQ.getD "" else true

/-- `a` comes no later than `b` in `sort({ createdAt: -1 })` order. -/
def createdGE (a b : MOrder) : Prop := b.createdAt ≤ a.createdAt

instance : DecidableRel createdGE := fun a b =>
  inferInstanceAs (Decidable (b.createdAt ≤ a.createdAt))

instance : IsTotal MOrder createdGE :=
  ⟨fun a b => (le_total b.createdAt a.createdAt).imp id id⟩

instance : IsTrans MOrder createdGE :=
  ⟨fun _ _ _ h₁ h₂ => le_trans h₂ h₁⟩

/-- The stored collection in `sort({ createdAt: -1 })` order. -/
def sortDesc (l : List MOrder) : List MOrder := List.insertionSort createdGE l

/-- `Order.find(query).sort({ createdAt: -1 }).limit(lim).skip(skip)` for a
nonnegative-integer skip and limit. -/
def mongoFind (statusQ : Option String) (skip lim : ℕ)
    (st : List MOrder) : List MOrder :=
  ((sortDesc (st.filter (matchesFilter statusQ))).drop skip).take lim

end Mongo

namespace OrderController

open MH Mongo

/-- Body of the `createOrder` request
(`src/controllers/orderController.js` line 7); no field is validated before
the charge. -/
structure CreateReq where
  customerInfo : Option MCustomerInfo
  items : Option (List MItem)
  squarePaymentToken : Option String
  totalAmount : Option ℚ
deriving DecidableEq, Repr

/-- An HTTP response of the controller.  The `404` branch sends only
`message`; the `500` branch sends `success`, `message` and `error`. -/
structure OCResp where
  status : ℕ
  success : Option Bool
  message : Option String
  error : Option String
deriving DecidableEq, Repr

/-- All-absent `customerInfo`, the cast of an `undefined` request field. -/
def emptyCustomer : MCustomerInfo :=
  ⟨none, none, none, none, none, none, none, none, none⟩

/-- `Math.round(totalAmount * 100)` where `totalAmount` may be `undefined`
(then the product and the rounding are `NaN`). -/
def centsOf : Option ℚ → JsNum
  | none => .nan
  | some q => .num ((jsRound (q * 100) : ℤ) : ℚ)

/-- The message of the `ReferenceError` raised at
`orderController.js` line 36 / line 74: the module imports only
`{ sendEmail }` from the email service, so the identifiers
`sendOrderConfirmationEmails` and `sendOrderStatusUpdateEmails` used in the
handlers are not in scope; the awaited call throws into the handler's
`catch`. -/
def confirmationEmailError : String := "sendOrderConfirmationEmails is not defined"

def statusEmailError : String := "sendOrderStatusUpdateEmails is not defined"

/-- `exports.createOrder` (`orderController.js` lines 5–51).  `idemKey` is
the `crypto.randomBytes(32).toString('hex')` value, `orderNum` the
pre-save-hook order number, `newOid` the store-assigned `_id`, `now` the
creation time.  Returns the new collection, the charge request issued, and
the response — `none` when the handler falls through without responding. -/
def createOrder (req : CreateReq) (gw : GatewayOutcome) (idemKey : String)
    (orderNum : String) (newOid : ℕ) (now : ℕ) (st : List MOrder) :
    List MOrder × Option GwCall × Option OCResp :=
  let call : GwCall :=
    { sourceId := req.squarePaymentToken
      amountCents := centsOf req.totalAmount
      idempotencyKey := idemKey }
  match gw with
  | .err msg _details =>
    (st, some call, some ⟨500, some false, some "Error creating order", some msg⟩)
  | .ok paymentId orderRef status =>
    if status = "COMPLETED" then
      let order : MOrder :=
        { oid := newOid
          orderNumber := orderNum
          customerInfo := req.customerInfo.getD emptyCustomer
          paymentInfo :=
            { squarePaymentToken := some paymentId
              squareOrderId := orderRef
              amount := req.totalAmount
              currency := "USD"
              paymentStatus := "paid" }
          items := req.items.getD []
          orderStatus := "paid"
          trackingNumber := none
          shippingAddress := none
          notes := none
          createdAt := now
          updatedAt := now }
      match mongoCreate order st with
      | .error e =>
        (st, some call, some ⟨500, some false, some "Error creating order", some e⟩)
      | .ok st' =>
        -- the awaited confirmation-email call raises a `ReferenceError`,
        -- landing in the catch block after the order was saved
        (st', some call,
         some ⟨500, some false, some "Error creating order", some confirmationEmailError⟩)
    else
      -- `if (status === 'COMPLETED')` has no else branch: the handler
      -- neither persists nor responds
      (st, some call, none)

/-- `exports.updateOrderStatus` (`orderController.js` lines 53–88): no
status validation, `findByIdAndUpdate` with the status patch, 404 when the
id resolves to nothing; otherwise the awaited status email raises and the
catch answers 500 — after the update was persisted. -/
def updateOrderStatus (orderId : ℕ) (status : String)
    (trackingNumber notes : Option String) (now : ℕ) (st : List MOrder) :
    List MOrder × OCResp :=
  let r := updateById orderId
    (applyStatusPatch (mkStatusPatch status trackingNumber notes now)) st
  match r.2 with
  | none => (r.1, ⟨404, none, some "Order not found", none⟩)
  | some _ =>
    (r.1, ⟨500, some false, some "Error updating order status", some statusEmailError⟩)

end OrderController

namespace MongoApp

open MH Mongo

/-- Body of `POST /api/process-payment`
(`src/services/emailService.js` server part, line 117). -/
structure PPRequest where
  paymentToken : Option String
  total : Option ℚ
  items : Option (List MItem)
  customerInfo : Option MCustomerInfo
deriving DecidableEq, Repr

/-- A JSON response of this server: HTTP status plus the fields the claims
inspect. -/
structure MResp where
  status : ℕ
  success : Bool
  error : Option String
  message : Option String
deriving DecidableEq, Repr

/-- The catch block of `POST /api/process-payment` (lines 188–203):
`error.errors[0].detail || 'Payment processing failed'` when a detail list
is present and non-empty, else `error.message || 'Payment processing
failed'`. -/
def ppErrorMessage (message : String) (details : List String) : String :=
  match details with
  | d :: _ => if d.isEmpty then "Payment processing failed" else d
  | [] => if message.isEmpty then "Payment processing failed" else message

/-- The validation test at line 127: `!paymentToken || !total || !items ||
!customerInfo` — truthiness, so a zero total is rejected but an *empty*
item array (truthy in JavaScript) and a negative total pass. -/
def ppValid (req : PPRequest) : Bool :=
  truthyStr req.paymentToken && truthyNum req.total &&
  req.items.isSome && req.customerInfo.isSome

/-- `POST /api/process-payment` (lines 116–204).  `uuid` models
`crypto.randomUUID?.()`, `orderNum` the pre-save order number, `newOid` the
new `_id`, `now` the clock.  The confirmation-email dispatch (line 177) is
awaited but is the never-rejecting mock of the same file, so the success
path is unaffected by it.  Returns state, issued charge request, response. -/
def processPayment (req : PPRequest) (gw : GatewayOutcome)
    (uuid : Option String) (orderNum : String) (newOid : ℕ) (now : ℕ)
    (st : List MOrder) : List MOrder × Option GwCall × MResp :=
  if !ppValid req then
    (st, none,
     ⟨400, false,
      some "Missing required fields: paymentToken, total, items, and customerInfo are required",
      none⟩)
  else
    let total := req.total.getD 0
    let call : GwCall :=
      { sourceId := req.paymentToken
        amountCents := .num ((jsRound (total * 100) : ℤ) : ℚ)
        idempotencyKey := uuid.getD ("mock_" ++ Nat.repr now) }
    match gw with
    | .err msg details =>
      (st, some call, ⟨400, false, some (ppErrorMessage msg details), none⟩)
    | .ok paymentId orderRef _status =>
      let c := req.customerInfo.getD ⟨none, none, none, none, none, none, none, none, none⟩
      let order : MOrder :=
        { oid := newOid
          orderNumber := orderNum
          customerInfo := c
          paymentInfo :=
            { squarePaymentToken := some paymentId
              squareOrderId := orderRef
              amount := some total
              currency := "USD"
              paymentStatus := "paid" }
          items := req.items.getD []
          orderStatus := "paid"
          trackingNumber := none
          shippingAddress := some
            { firstName := c.firstName
              lastName := c.lastName
              address := c.address
              city := c.city
              state := c.state
              zipCode := c.zipCode }
          notes := none
          createdAt := now
          updatedAt := now }
      match mongoCreate order st with
      | .error e =>
        -- a failed save lands in the same catch block as a declined charge
        (st, some call, ⟨400, false, some (ppErrorMessage e []), none⟩)
      | .ok st' =>
        (st', some call,
         ⟨200, true, none, some "Payment processed and order created successfully"⟩)

/-- `PATCH /api/orders/:orderId/status` (lines 238–286): status validated
against the enumeration *before* any store access; then
`findByIdAndUpdate`; the awaited status email is the never-rejecting mock. -/
def patchStatus (orderId : ℕ) (status : String)
    (trackingNumber notes : Option String) (now : ℕ) (st : List MOrder) :
    List MOrder × MResp :=
  if !orderStatusEnum.contains status then
    (st,
     ⟨400, false,
      some "Invalid status. Must be one of: pending, paid, processing, fulfilled, cancelled, shipped, delivered",
      none⟩)
  else
    let r := updateById orderId
      (applyStatusPatch (mkStatusPatch status trackingNumber notes now)) st
    match r.2 with
    | none => (r.1, ⟨404, false, some "Order not found", none⟩)
    | some _ =>
      (r.1, ⟨200, true, none, some ("Order status updated to " ++ status)⟩)

/-- `page` / `limit` before coercion: the destructuring default (a number)
when the query key is absent, otherwise the raw query string coerced by the
arithmetic that consumes it. -/
def pageNumOf (q : Option String) (d : ℚ) : JsNum :=
  match q with
  | none => .num d
  | some s => jsToNumber s

/-- `parseInt` on the `page` value (default: the number `1`): optional
sign, then the longest digit prefix; no digits at all is `NaN`. -/
def currentPageOf (q : Option String) : JsNum :=
  match q with
  | none => .num 1
  | some s =>
    match trimChars s.data with
    | '-' :: rest =>
      match digits? (rest.takeWhile Char.isDigit) with
      | none => .nan
      | some n => .num (-(n : ℚ))
    | t =>
      match digits? (t.takeWhile Char.isDigit) with
      | none => .nan
      | some n => .num ((n : ℚ))

/-- The values the handler hands to `.skip()` and `.limit()`:
`(page - 1) * limit` and `limit * 1`. -/
structure PageQuery where
  skipVal : JsNum
  limitVal : JsNum
deriving DecidableEq, Repr

/-- The success payload of `GET /api/orders`. -/
structure PagePayload where
  orders : List MOrder
  totalPages : JsNum
  currentPage : JsNum
  total : ℕ
deriving DecidableEq, Repr

/-- `GET /api/orders` (lines 207–235).  Defaults apply only to *absent*
query keys; a present non-numeric value propagates `NaN` into the skip and
limit.  The store scan is modelled only when both values are nonnegative
integers (payload `none` otherwise: the query as issued is outside the
modelled store semantics).  `orderController.js` `getAllOrders` (lines
90–116) is the same handler except that it echoes `page` uncoerced. -/
def getOrders (statusQ pageQ limitQ : Option String) (st : List MOrder) :
    PageQuery × Option PagePayload :=
  let pageN := pageNumOf pageQ 1
  let limitN := pageNumOf limitQ 10
  let limVal := jsMul limitN (.num 1)
  let skipVal := jsMul (jsSub pageN (.num 1)) limitN
  let total := (st.filter (matchesFilter statusQ)).length
  let payload :=
    match skipVal.asNat?, limVal.asNat? with
    | some sk, some li =>
      some
        { orders := mongoFind statusQ sk li st
          totalPages := jsCeilDivNat total limitN
          currentPage := currentPageOf pageQ
          total := total }
    | _, _ => none
  (⟨skipVal, limVal⟩, payload)

end MongoApp

section Fixtures

open MH Mongo

/-- A fully-populated customer record (all required paths truthy). -/
def sampleCustomer : MCustomerInfo :=
  ⟨some "Jane", some "Doe", some "jane@example.com", some "555-0100",
   some "1 Main St", some "Springfield", some "IL", some "62701", none⟩

/-- A valid line item. -/
def sampleItem : MItem := ⟨some "Widget", some 10, some 2, none⟩

/-- A stored order used by the status-update and listing scenarios. -/
def sampleOrder : MOrder :=
  { oid := 1
    orderNumber := "MHD-20250101-AAAAAA"
    customerInfo := sampleCustomer
    paymentInfo := ⟨some "sq_pay_1", some "sq_ord_1", some 20, "USD", "paid"⟩
    items := [sampleItem]
    orderStatus := "paid"
    trackingNumber := none
    shippingAddress := none
    notes := none
    createdAt := 100
    updatedAt := 100 }

/-- A second stored order, created later than `sampleOrder`. -/
def sampleOrder2 : MOrder :=
  { sampleOrder with
    oid := 2
    orderNumber := "MHD-20250102-BBBBBB"
    createdAt := 200
    updatedAt := 200 }

/-- A third stored order, created last. -/
def sampleOrder3 : MOrder :=
  { sampleOrder with
    oid := 3
    orderNumber := "MHD-20250103-CCCCCC"
    createdAt := 300
    updatedAt := 300 }

/-- A well-formed `src/server.js` checkout body. -/
def fReqValid : FileServer.FRequest :=
  ⟨some 20, some 2, some "jane@example.com", some [],
   some FileServer.emptyDetails, some "tok_ok"⟩

/-- A second, distinct `src/server.js` checkout body (a different token and
total — a different logical attempt). -/
def fReqValid2 : FileServer.FRequest :=
  ⟨some 5, some 1, some "john@example.com", some [],
   some FileServer.emptyDetails, some "tok_other"⟩

/-- A well-formed `createOrder` body for the Mongoose controller. -/
def ocReqValid : OrderController.CreateReq :=
  ⟨some sampleCustomer, some [sampleItem], some "tok_ok", some 20⟩

/-- A process-payment body whose `items` is the *empty* array. -/
def ppReqEmptyItems : MongoApp.PPRequest :=
  ⟨some "tok_ok", some 5, some [], some sampleCustomer⟩

/-- A well-formed process-payment body. -/
def ppReqValid : MongoApp.PPRequest :=
  ⟨some "tok_ok", some 20, some [sampleItem], some sampleCustomer⟩

/-- The charge request emitted by a concrete `src/server.js` checkout at
millisecond `1000` (first attempt). -/
def c9call1 : MH.GwCall :=
  ((FileServer.postOrders 1000 fReqValid (.ok "p" none "COMPLETED") true
      ⟨[], 1⟩).2.1).getD ⟨none, .nan, ""⟩

/-- The charge request emitted by a *different* checkout attempt in the
same millisecond. -/
def c9call2 : MH.GwCall :=
  ((FileServer.postOrders 1000 fReqValid2 (.err "declined" []) true
      ⟨[], 5⟩).2.1).getD ⟨none, .nan, ""⟩

/-- A `src/server.js` checkout body with no payment token. -/
def fReqNoToken : FileServer.FRequest :=
  ⟨some 20, some 2, some "jane@example.com", some [],
   some FileServer.emptyDetails, none⟩

/-- A process-payment body with a zero total (falsy, so rejected). -/
def ppReqZeroTotal : MongoApp.PPRequest :=
  ⟨some "tok_ok", some 0, some [sampleItem], some sampleCustomer⟩

/-- The fields of a stored order that the status-update operation may not
touch: everything except `orderStatus`, `trackingNumber`, `notes`,
`updatedAt`. -/
def frameEq (a b : MOrder) : Prop :=
  a.oid = b.oid ∧ a.orderNumber = b.orderNumber ∧
  a.customerInfo = b.customerInfo ∧ a.items = b.items ∧
  a.paymentInfo = b.paymentInfo ∧ a.shippingAddress = b.shippingAddress ∧
  a.createdAt = b.createdAt

/-- The frame relation for a status update aimed at `orderId`: every stored
order keeps its immutable fields, and orders other than the target are
untouched entirely. -/
def frameAt (orderId : ℕ) (a b : MOrder) : Prop :=
  frameEq a b ∧ (a.oid ≠ orderId → a = b)

end Fixtures

section Helpers

open MH Mongo

theorem frameAt_rfl (orderId : ℕ) (a : MOrder) : frameAt orderId a a :=
  ⟨⟨rfl, rfl, rfl, rfl, rfl, rfl, rfl⟩, fun _ => rfl⟩

theorem frameEq_applyStatusPatch (p : StatusPatch) (o : MOrder) :
    frameEq o (applyStatusPatch p o) :=
  ⟨rfl, rfl, rfl, rfl, rfl, rfl, rfl⟩

/-- `findByIdAndUpdate` with a status patch relates the old and new
collections by the frame: immutable fields survive everywhere and
non-target documents are untouched. -/
theorem updateById_frame (orderId : ℕ) (p : StatusPatch) (st : List MOrder) :
    List.Forall₂ (frameAt orderId) st (updateById orderId (applyStatusPatch p) st).1 := by
  induction st with
  | nil => exact List.Forall₂.nil
  | cons o rest ih =>
    by_cases h : o.oid = orderId
    · simp only [updateById, if_pos h]
      exact List.Forall₂.cons
        ⟨frameEq_applyStatusPatch p o, fun hne => absurd h hne⟩
        (List.forall₂_same.mpr fun a _ => frameAt_rfl orderId a)
    · simp only [updateById, if_neg h]
      exact List.Forall₂.cons (frameAt_rfl orderId o) ih

/-- When no stored document carries the id, `findByIdAndUpdate` returns
`null` and the collection is unchanged. -/
theorem updateById_not_found (orderId : ℕ) (f : MOrder → MOrder)
    (st : List MOrder) (h : ∀ o ∈ st, o.oid ≠ orderId) :
    updateById orderId f st = (st, none) := by
  induction st with
  | nil => rfl
  | cons o rest ih =>
    have ho : o.oid ≠ orderId := h o (List.mem_cons_self o rest)
    have hr := ih fun x hx => h x (List.mem_cons_of_mem o hx)
    simp only [updateById, if_neg ho, hr]

/-- The collection returned by `updateOrderStatus` is the one produced by
`findByIdAndUpdate`, whatever the response branch. -/
theorem updateOrderStatus_fst (orderId : ℕ) (status : String)
    (tr notes : Option String) (now : ℕ) (st : List MOrder) :
    (OrderController.updateOrderStatus orderId status tr notes now st).1 =
      (updateById orderId (applyStatusPatch (mkStatusPatch status tr notes now)) st).1 := by
  unfold OrderController.updateOrderStatus
  rcases h : updateById orderId (applyStatusPatch (mkStatusPatch status tr notes now)) st
    with ⟨l, m⟩
  cases m <;> rfl

/-- When the status passes the enumeration check, the collection returned
by the PATCH handler is the one produced by `findByIdAndUpdate`. -/
theorem patchStatus_fst (orderId : ℕ) (status : String)
    (tr notes : Option String) (now : ℕ) (st : List MOrder)
    (h : orderStatusEnum.contains status = true) :
    (MongoApp.patchStatus orderId status tr notes now st).1 =
      (updateById orderId (applyStatusPatch (mkStatusPatch status tr notes now)) st).1 := by
  unfold MongoApp.patchStatus
  rcases hu : updateById orderId (applyStatusPatch (mkStatusPatch status tr notes now)) st
    with ⟨l, m⟩
  rw [h]
  cases m <;> rfl

theorem isEmpty_false_of_ne {s : String} (h : s ≠ "") : s.isEmpty = false := by
  cases he : s.isEmpty
  · rfl
  · exact absurd ((String.isEmpty_iff s).mp he) h

end Helpers

/-- C10: in the Mongoose `createOrder` handler, whenever the gateway call
returns without throwing but the payment status is not `'COMPLETED'`, the
handler persists no order and sends no HTTP response at all. -/
theorem c10_nonCompleted_no_response (req : OrderController.CreateReq)
    (idemKey orderNum : String) (newOid now : ℕ) (st : List Mongo.MOrder)
    (paymentId : String) (orderRef : Option String) (status : String)
    (hs : status ≠ "COMPLETED") :
    (OrderController.createOrder req (.ok paymentId orderRef status)
        idemKey orderNum newOid now st).1 = st ∧
    (OrderController.createOrder req (.ok paymentId orderRef status)
        idemKey orderNum newOid now st).2.2 = none := by
  simp [OrderController.createOrder, hs]

/-- Witness for C10: a gateway result with status `'FAILED'` on a
well-formed request leaves the store empty and produces no response. -/
theorem c10_nonCompleted_no_response_witness :
    ("FAILED" : String) ≠ "COMPLETED" ∧
    ((OrderController.createOrder ocReqValid (.ok "p1" none "FAILED")
        "k1" "MHD-1" 1 5 []).1 = [] ∧
     (OrderController.createOrder ocReqValid (.ok "p1" none "FAILED")
        "k1" "MHD-1" 1 5 []).2.2 = none) :=
  ⟨by decide,
   c10_nonCompleted_no_response ocReqValid "k1" "MHD-1" 1 5 [] "p1" none "FAILED"
     (by decide)⟩

/-- C6: a status update — through either the Mongoose controller's
`updateOrderStatus` or the PATCH handler of the embedded server — can change
only `orderStatus`, `trackingNumber`, `notes` and `updatedAt`: every stored
order keeps its `oid`, `orderNumber`, `customerInfo`, `items`,
`paymentInfo`, `shippingAddress` and `createdAt`, and orders other than the
target are untouched entirely. -/
theorem c6_update_frame (orderId : ℕ) (status : String)
    (tr notes : Option String) (now : ℕ) (st : List Mongo.MOrder) :
    List.Forall₂ (frameAt orderId) st
      (OrderController.updateOrderStatus orderId status tr notes now st).1 ∧
    List.Forall₂ (frameAt orderId) st
      (MongoApp.patchStatus orderId status tr notes now st).1 := by
  constructor
  · rw [updateOrderStatus_fst]
    exact updateById_frame orderId _ st
  · by_cases h : Mongo.orderStatusEnum.contains status
    · rw [patchStatus_fst orderId status tr notes now st h]
      exact updateById_frame orderId _ st
    · simp only [Bool.not_eq_true] at h
      unfold MongoApp.patchStatus
      rw [h]
      exact List.forall₂_same.mpr fun a _ => frameAt_rfl orderId a

/-- C1 counterexample: in `src/server.js`, a gateway call that *returns* a
payment with status `'FAILED'` (not a raised decline) still persists an
order — the handler never inspects the returned status, refuting "for every
request where the gateway reports … a non-completed status, no order record
is written". -/
theorem c1_nonCompleted_still_persists :
    (FileServer.postOrders 1000 fReqValid (.ok "p1" (some "o1") "FAILED") true
        ⟨[], 1⟩).1.orders.length = 1 ∧
    ("FAILED" : String) ≠ "COMPLETED" := by
  constructor
  · rfl
  · decide

/-- C1 (amended): an order record is persisted exactly when the gateway
call returns without raising.  A decline raised as an error leaves the
store unchanged in both checkout handlers, but a returned result is
persisted whatever its status says: (1) `src/server.js` on a raised
decline; (2) `src/server.js` on any returned result (given a truthy
token); (3) the process-payment handler on a raised decline; (4) the
process-payment handler on any returned result, for a savable document. -/
theorem c1_persist_iff_call_returns :
    (∀ (now : ℕ) (req : FileServer.FRequest) (e : Bool) (st : FileServer.FileState)
        (msg : String) (det : List String),
      (FileServer.postOrders now req (.err msg det) e st).1 = st) ∧
    (∀ (now : ℕ) (req : FileServer.FRequest) (e : Bool) (st : FileServer.FileState)
        (pid : String) (oref : Option String) (s : String),
      MH.truthyStr req.paymentToken = true →
      (FileServer.postOrders now req (.ok pid oref s) e st).1.orders.length =
        st.orders.length + 1) ∧
    (∀ (req : MongoApp.PPRequest) (uuid : Option String) (orderNum : String)
        (newOid now : ℕ) (st : List Mongo.MOrder) (msg : String) (det : List String),
      (MongoApp.processPayment req (.err msg det) uuid orderNum newOid now st).1 = st) ∧
    (∀ (req : MongoApp.PPRequest) (c : Mongo.MCustomerInfo) (its : List Mongo.MItem)
        (pid : String) (oref : Option String) (s : String) (uuid : Option String)
        (orderNum : String) (newOid now : ℕ) (st : List Mongo.MOrder),
      MongoApp.ppValid req = true →
      req.customerInfo = some c → c.valid = true →
      req.items = some its → its.all Mongo.MItem.valid = true →
      orderNum ≠ "" → st.any (fun o => o.orderNumber == orderNum) = false →
      pid ≠ "" →
      (MongoApp.processPayment req (.ok pid oref s) uuid orderNum newOid now st).1.length =
        st.length + 1) := by
  refine ⟨?_, ?_, ?_, ?_⟩
  · intro now req e st msg det
    unfold FileServer.postOrders
    by_cases h : MH.truthyStr req.paymentToken <;> simp [h]
  · intro now req e st pid oref s h
    simp [FileServer.postOrders, h]
  · intro req uuid orderNum newOid now st msg det
    unfold MongoApp.processPayment
    by_cases h : MongoApp.ppValid req <;> simp [h]
  · intro req c its pid oref s uuid orderNum newOid now st hv hci hc hit hits hn hfresh hpid
    have hpe : pid.isEmpty = false := by
      cases h : pid.isEmpty
      · rfl
      · exact absurd ((String.isEmpty_iff pid).mp h) hpid
    have hne : orderNum.isEmpty = false := by
      cases h : orderNum.isEmpty
      · rfl
      · exact absurd ((String.isEmpty_iff orderNum).mp h) hn
    have h1 : Mongo.orderStatusEnum.contains "paid" = true := by decide
    have h2 : Mongo.paymentStatusEnum.contains "paid" = true := by decide
    simp +decide [MongoApp.processPayment, hv, hci, hit, Mongo.mongoCreate,
      Mongo.MOrder.validDoc, Mongo.MPaymentInfo.valid, MH.truthyStr,
      hpe, hne, hc, hits, h1, h2, hfresh]

/-- Witness for the amended C1, at concrete inputs: a raised decline leaves
both stores unchanged; a returned result with a non-completed status
(`'PENDING'`, `'APPROVED'`) is persisted by both handlers. -/
theorem c1_persist_iff_call_returns_witness :
    (FileServer.postOrders 1 fReqValid (.err "card declined" []) true
        ⟨[], 1⟩).1 = ⟨[], 1⟩ ∧
    (MH.truthyStr fReqValid.paymentToken = true ∧
     (FileServer.postOrders 1 fReqValid (.ok "p" none "PENDING") true
         ⟨[], 1⟩).1.orders.length = (⟨[], 1⟩ : FileServer.FileState).orders.length + 1) ∧
    (MongoApp.processPayment ppReqValid (.err "declined" []) none "MHD-1" 1 5 []).1 =
      [] ∧
    (MongoApp.ppValid ppReqValid = true ∧
     (MongoApp.processPayment ppReqValid (.ok "p" none "APPROVED") none "MHD-1" 1 5
         []).1.length = ([] : List Mongo.MOrder).length + 1) :=
  ⟨c1_persist_iff_call_returns.1 1 fReqValid true ⟨[], 1⟩ "card declined" [],
   ⟨by decide,
    c1_persist_iff_call_returns.2.1 1 fReqValid true ⟨[], 1⟩ "p" none "PENDING"
      (by decide)⟩,
   c1_persist_iff_call_returns.2.2.1 ppReqValid none "MHD-1" 1 5 [] "declined" [],
   ⟨by decide,
    c1_persist_iff_call_returns.2.2.2 ppReqValid sampleCustomer [sampleItem] "p" none
      "APPROVED" none "MHD-1" 1 5 [] (by decide) (by decide) (by decide) (by decide)
      (by decide) (by decide) (by decide) (by decide)⟩⟩

/-- C2 counterexample: a checkout with an *empty* item list is not rejected
— an empty array is truthy in JavaScript, so the process-payment handler's
validation passes, a charge is attempted, and with a successful gateway an
order record is even written (HTTP 200), refuting "empty item list →
ValidationError, no charge attempted, no record written". -/
theorem c2_empty_items_not_rejected :
    ppReqEmptyItems.items = some ([] : List Mongo.MItem) ∧
    (MongoApp.processPayment ppReqEmptyItems (.err "declined" []) none "MHD-1" 1 5
        []).2.1.isSome = true ∧
    (MongoApp.processPayment ppReqEmptyItems (.ok "p" none "COMPLETED") none "MHD-1"
        1 5 []).1.length = 1 ∧
    (MongoApp.processPayment ppReqEmptyItems (.ok "p" none "COMPLETED") none "MHD-1"
        1 5 []).2.2.status = 200 := by
  refine ⟨rfl, rfl, ?_, ?_⟩ <;> decide

/-- C2 (amended): the only creation-path validations are truthiness checks —
`src/server.js` rejects exactly a missing/empty payment token (400, no
charge, store untouched); the process-payment handler rejects exactly a
falsy `paymentToken`, `total`, `items` or `customerInfo` field (400, no
charge, store untouched); whenever that truthiness test passes — including
an empty item list or a negative total — a charge is attempted. -/
theorem c2_validation_scope :
    (∀ (now : ℕ) (req : FileServer.FRequest) (gw : MH.GatewayOutcome) (e : Bool)
        (st : FileServer.FileState),
      MH.truthyStr req.paymentToken = false →
      FileServer.postOrders now req gw e st =
        (st, none, ⟨400, false, some "Payment token is required", none⟩)) ∧
    (∀ (req : MongoApp.PPRequest) (gw : MH.GatewayOutcome) (uuid : Option String)
        (orderNum : String) (newOid now : ℕ) (st : List Mongo.MOrder),
      MongoApp.ppValid req = false →
      MongoApp.processPayment req gw uuid orderNum newOid now st =
        (st, none,
         ⟨400, false,
          some "Missing required fields: paymentToken, total, items, and customerInfo are required",
          none⟩)) ∧
    (∀ (req : MongoApp.PPRequest) (gw : MH.GatewayOutcome) (uuid : Option String)
        (orderNum : String) (newOid now : ℕ) (st : List Mongo.MOrder),
      MongoApp.ppValid req = true →
      (MongoApp.processPayment req gw uuid orderNum newOid now st).2.1.isSome = true) ∧
    (∀ (now : ℕ) (req : FileServer.FRequest) (gw : MH.GatewayOutcome) (e : Bool)
        (st : FileServer.FileState),
      MH.truthyStr req.paymentToken = true →
      (FileServer.postOrders now req gw e st).2.1.isSome = true) := by
  refine ⟨?_, ?_, ?_, ?_⟩
  · intro now req gw e st h
    simp [FileServer.postOrders, h]
  · intro req gw uuid orderNum newOid now st h
    simp [MongoApp.processPayment, h]
  · intro req gw uuid orderNum newOid now st h
    cases gw with
    | err msg det => simp [MongoApp.processPayment, h]
    | ok pid oref s =>
      simp only [MongoApp.processPayment, h, Bool.not_true, Bool.false_eq_true,
        if_false]
      split <;> rfl
  · intro now req gw e st h
    cases gw with
    | err msg det => simp [FileServer.postOrders, h]
    | ok pid oref s => simp [FileServer.postOrders, h]

/-- Witness for the amended C2: the tokenless body is turned away with no
charge; a zero total is turned away with no charge; the empty-item-list
body and the valid `src/server.js` body both reach the gateway. -/
theorem c2_validation_scope_witness :
    (MH.truthyStr fReqNoToken.paymentToken = false ∧
     FileServer.postOrders 7 fReqNoToken (.err "never" []) true ⟨[], 1⟩ =
       (⟨[], 1⟩, none, ⟨400, false, some "Payment token is required", none⟩)) ∧
    (MongoApp.ppValid ppReqZeroTotal = false ∧
     MongoApp.processPayment ppReqZeroTotal (.err "never" []) none "MHD-1" 1 5 [] =
       ([], none,
        ⟨400, false,
         some "Missing required fields: paymentToken, total, items, and customerInfo are required",
         none⟩)) ∧
    (MongoApp.ppValid ppReqEmptyItems = true ∧
     (MongoApp.processPayment ppReqEmptyItems (.ok "p" none "COMPLETED") none
         "MHD-1" 1 5 []).2.1.isSome = true) ∧
    (MH.truthyStr fReqValid.paymentToken = true ∧
     (FileServer.postOrders 7 fReqValid (.ok "p" none "COMPLETED") true
         ⟨[], 1⟩).2.1.isSome = true) :=
  ⟨⟨by decide, c2_validation_scope.1 7 fReqNoToken (.err "never" []) true ⟨[], 1⟩
      (by decide)⟩,
   ⟨by decide, c2_validation_scope.2.1 ppReqZeroTotal (.err "never" []) none "MHD-1"
      1 5 [] (by decide)⟩,
   ⟨by decide, c2_validation_scope.2.2.1 ppReqEmptyItems (.ok "p" none "COMPLETED")
      none "MHD-1" 1 5 [] (by decide)⟩,
   ⟨by decide, c2_validation_scope.2.2.2 7 fReqValid (.ok "p" none "COMPLETED") true
      ⟨[], 1⟩ (by decide)⟩⟩

/-- C3 counterexample: when the gateway rejects the charge in the Mongoose
`createOrder` controller, the catch-all answers HTTP **500** (with the raw
message), not the claimed 400 — at the concrete decline
`insufficient_funds` on a well-formed request. -/
theorem c3_controller_decline_is_500 :
    (OrderController.createOrder ocReqValid (.err "insufficient_funds" []) "k1"
        "MHD-1" 1 5 []).2.2 =
      some ⟨500, some false, some "Error creating order", some "insufficient_funds"⟩ := by
  rfl

/-- C3 (amended): a rejected charge persists no order in every variant and
surfaces a processor-provided reason, but the HTTP status differs:
`src/server.js` answers 400 with `Payment failed: <message>`; the
process-payment handler answers 400 with the first processor error detail
when one is present (else the message); the Mongoose `createOrder`
controller answers **500** through its catch-all, with the message in the
`error` field. -/
theorem c3_decline_responses :
    (∀ (now : ℕ) (req : FileServer.FRequest) (e : Bool) (st : FileServer.FileState)
        (msg : String) (det : List String),
      MH.truthyStr req.paymentToken = true →
      (FileServer.postOrders now req (.err msg det) e st).1 = st ∧
      (FileServer.postOrders now req (.err msg det) e st).2.2 =
        ⟨400, false, some ("Payment failed: " ++ msg), none⟩) ∧
    (∀ (req : MongoApp.PPRequest) (uuid : Option String) (orderNum : String)
        (newOid now : ℕ) (st : List Mongo.MOrder) (msg : String) (det : List String),
      MongoApp.ppValid req = true →
      (MongoApp.processPayment req (.err msg det) uuid orderNum newOid now st).1 = st ∧
      (MongoApp.processPayment req (.err msg det) uuid orderNum newOid now st).2.2 =
        ⟨400, false, some (MongoApp.ppErrorMessage msg det), none⟩) ∧
    (∀ (msg d : String) (rest : List String),
      d ≠ "" → MongoApp.ppErrorMessage msg (d :: rest) = d) ∧
    (∀ msg : String, msg ≠ "" → MongoApp.ppErrorMessage msg [] = msg) ∧
    (∀ (req : OrderController.CreateReq) (idemKey orderNum : String)
        (newOid now : ℕ) (st : List Mongo.MOrder) (msg : String) (det : List String),
      (OrderController.createOrder req (.err msg det) idemKey orderNum newOid now
          st).1 = st ∧
      (OrderController.createOrder req (.err msg det) idemKey orderNum newOid now
          st).2.2 =
        some ⟨500, some false, some "Error creating order", some msg⟩) := by
  refine ⟨?_, ?_, ?_, ?_, ?_⟩
  · intro now req e st msg det h
    constructor <;> simp [FileServer.postOrders, h]
  · intro req uuid orderNum newOid now st msg det h
    constructor <;> simp [MongoApp.processPayment, h]
  · intro msg d rest hd
    simp [MongoApp.ppErrorMessage, isEmpty_false_of_ne hd]
  · intro msg hm
    simp [MongoApp.ppErrorMessage, isEmpty_false_of_ne hm]
  · intro req idemKey orderNum newOid now st msg det
    exact ⟨rfl, rfl⟩

/-- Witness for the amended C3: a decline with detail
`insufficient_funds` produces 400 + that detail in the embedded server, 400
+ `Payment failed: card declined` in `src/server.js`, and 500 in the
controller — no order stored in any of them. -/
theorem c3_decline_responses_witness :
    (MH.truthyStr fReqValid.paymentToken = true ∧
     (FileServer.postOrders 9 fReqValid (.err "card declined" []) true
         ⟨[], 1⟩).1 = ⟨[], 1⟩ ∧
     (FileServer.postOrders 9 fReqValid (.err "card declined" []) true
         ⟨[], 1⟩).2.2 = ⟨400, false, some ("Payment failed: " ++ "card declined"), none⟩) ∧
    (MongoApp.ppValid ppReqValid = true ∧
     (MongoApp.processPayment ppReqValid (.err "generic" ["insufficient_funds"])
         none "MHD-1" 1 5 []).1 = [] ∧
     (MongoApp.processPayment ppReqValid (.err "generic" ["insufficient_funds"])
         none "MHD-1" 1 5 []).2.2 =
       ⟨400, false,
        some (MongoApp.ppErrorMessage "generic" ["insufficient_funds"]), none⟩) ∧
    (("insufficient_funds" : String) ≠ "" ∧
     MongoApp.ppErrorMessage "generic" ["insufficient_funds"] = "insufficient_funds") ∧
    (("card declined" : String) ≠ "" ∧
     MongoApp.ppErrorMessage "card declined" [] = "card declined") ∧
    ((OrderController.createOrder ocReqValid (.err "card declined" []) "k1" "MHD-9"
        9 9 []).1 = [] ∧
     (OrderController.createOrder ocReqValid (.err "card declined" []) "k1" "MHD-9"
        9 9 []).2.2 =
       some ⟨500, some false, some "Error creating order", some "card declined"⟩) :=
  ⟨⟨by decide,
    c3_decline_responses.1 9 fReqValid true ⟨[], 1⟩ "card declined" [] (by decide)⟩,
   ⟨by decide,
    c3_decline_responses.2.1 ppReqValid none "MHD-1" 1 5 [] "generic"
      ["insufficient_funds"] (by decide)⟩,
   ⟨by decide,
    c3_decline_responses.2.2.1 "generic" "insufficient_funds" [] (by decide)⟩,
   ⟨by decide,
    c3_decline_responses.2.2.2.1 "card declined" (by decide)⟩,
   c3_decline_responses.2.2.2.2 ocReqValid "k1" "MHD-9" 9 9 [] "card declined" []⟩

/-- C4 counterexample: on a fully successful checkout, `src/server.js`
stores the order with `status: 'pending'` — not the claimed `'paid'`
initial state (its `paymentStatus` is `'paid'`). -/
theorem c4_fileserver_initial_status_pending :
    ((FileServer.postOrders 4 fReqValid (.ok "p" (some "o") "COMPLETED") true
        ⟨[], 1⟩).1.orders.map (fun o => o.status)) = ["pending"] ∧
    ("pending" : String) ≠ "paid" := by
  exact ⟨rfl, by decide⟩

/-- C4 (amended): a valid checkout against a successful gateway appends
exactly one order whose recorded amount is the client-submitted total; in
the two Mongoose variants its `orderStatus` (and `paymentStatus`) is
`'paid'`, while `src/server.js` stores `status 'pending'` with
`paymentStatus 'paid'`. -/
theorem c4_created_order_fields :
    (∀ (req : OrderController.CreateReq) (c : Mongo.MCustomerInfo)
        (its : List Mongo.MItem) (pid : String) (oref : Option String) (t : ℚ)
        (idemKey orderNum : String) (newOid now : ℕ) (st : List Mongo.MOrder),
      req.customerInfo = some c → c.valid = true →
      req.items = some its → its.all Mongo.MItem.valid = true →
      req.totalAmount = some t →
      orderNum ≠ "" → st.any (fun o => o.orderNumber == orderNum) = false →
      pid ≠ "" →
      ∃ o : Mongo.MOrder,
        (OrderController.createOrder req (.ok pid oref "COMPLETED") idemKey orderNum
            newOid now st).1 = st ++ [o] ∧
        o.orderStatus = "paid" ∧ o.paymentInfo.paymentStatus = "paid" ∧
        o.paymentInfo.amount = some t) ∧
    (∀ (req : MongoApp.PPRequest) (c : Mongo.MCustomerInfo)
        (its : List Mongo.MItem) (pid : String) (oref : Option String) (s : String)
        (t : ℚ) (uuid : Option String) (orderNum : String) (newOid now : ℕ)
        (st : List Mongo.MOrder),
      MongoApp.ppValid req = true →
      req.customerInfo = some c → c.valid = true →
      req.items = some its → its.all Mongo.MItem.valid = true →
      req.total = some t →
      orderNum ≠ "" → st.any (fun o => o.orderNumber == orderNum) = false →
      pid ≠ "" →
      ∃ o : Mongo.MOrder,
        (MongoApp.processPayment req (.ok pid oref s) uuid orderNum newOid now
            st).1 = st ++ [o] ∧
        o.orderStatus = "paid" ∧ o.paymentInfo.paymentStatus = "paid" ∧
        o.paymentInfo.amount = some t) ∧
    (∀ (now : ℕ) (req : FileServer.FRequest) (e : Bool) (st : FileServer.FileState)
        (pid : String) (oref : Option String) (s : String) (t : ℚ),
      MH.truthyStr req.paymentToken = true →
      req.total = some t →
      ∃ o : FileServer.FOrder,
        (FileServer.postOrders now req (.ok pid oref s) e st).1.orders =
          st.orders ++ [o] ∧
        o.status = "pending" ∧ o.paymentStatus = "paid" ∧ o.total = t) := by
  refine ⟨?_, ?_, ?_⟩
  · intro req c its pid oref t idemKey orderNum newOid now st hci hc hit hits ht hn
      hfresh hpid
    have hpe : pid.isEmpty = false := isEmpty_false_of_ne hpid
    have hne : orderNum.isEmpty = false := isEmpty_false_of_ne hn
    have h1 : Mongo.orderStatusEnum.contains "paid" = true := by decide
    have h2 : Mongo.paymentStatusEnum.contains "paid" = true := by decide
    simp +decide [OrderController.createOrder, hci, hit, ht, Mongo.mongoCreate,
      Mongo.MOrder.validDoc, Mongo.MPaymentInfo.valid, MH.truthyStr,
      hpe, hne, hc, hits, h1, h2, hfresh]
  · intro req c its pid oref s t uuid orderNum newOid now st hv hci hc hit hits ht
      hn hfresh hpid
    have hpe : pid.isEmpty = false := isEmpty_false_of_ne hpid
    have hne : orderNum.isEmpty = false := isEmpty_false_of_ne hn
    have h1 : Mongo.orderStatusEnum.contains "paid" = true := by decide
    have h2 : Mongo.paymentStatusEnum.contains "paid" = true := by decide
    simp +decide [MongoApp.processPayment, hv, hci, hit, ht, Mongo.mongoCreate,
      Mongo.MOrder.validDoc, Mongo.MPaymentInfo.valid, MH.truthyStr,
      hpe, hne, hc, hits, h1, h2, hfresh]
  · intro now req e st pid oref s t h ht
    simp [FileServer.postOrders, h, ht]

/-- Witness for the amended C4 at concrete inputs: each creation path
appends exactly one order carrying the submitted total of `20`; the
Mongoose paths mark it `paid`, the file-store path `pending`/`paid`. -/
theorem c4_created_order_fields_witness :
    (∃ o : Mongo.MOrder,
      (OrderController.createOrder ocReqValid (.ok "p" none "COMPLETED") "k1"
          "MHD-4" 4 4 []).1 = [] ++ [o] ∧
      o.orderStatus = "paid" ∧ o.paymentInfo.paymentStatus = "paid" ∧
      o.paymentInfo.amount = some 20) ∧
    (∃ o : Mongo.MOrder,
      (MongoApp.processPayment ppReqValid (.ok "p" none "COMPLETED") none "MHD-4" 4
          4 []).1 = [] ++ [o] ∧
      o.orderStatus = "paid" ∧ o.paymentInfo.paymentStatus = "paid" ∧
      o.paymentInfo.amount = some 20) ∧
    (∃ o : FileServer.FOrder,
      (FileServer.postOrders 4 fReqValid (.ok "p" none "COMPLETED") true
          ⟨[], 1⟩).1.orders = (⟨[], 1⟩ : FileServer.FileState).orders ++ [o] ∧
      o.status = "pending" ∧ o.paymentStatus = "paid" ∧ o.total = 20) :=
  ⟨c4_created_order_fields.1 ocReqValid sampleCustomer [sampleItem] "p" none 20 "k1"
     "MHD-4" 4 4 [] (by decide) (by decide) (by decide) (by decide) (by decide)
     (by decide) (by decide) (by decide),
   c4_created_order_fields.2.1 ppReqValid sampleCustomer [sampleItem] "p" none
     "COMPLETED" 20 none "MHD-4" 4 4 [] (by decide) (by decide) (by decide)
     (by decide) (by decide) (by decide) (by decide) (by decide) (by decide),
   c4_created_order_fields.2.2 4 fReqValid true ⟨[], 1⟩ "p" none "COMPLETED" 20
     (by decide) (by decide)⟩

/-- C5 counterexample: the Mongoose controller's `updateOrderStatus` does
no status validation and passes no `runValidators` option, so the
out-of-enumeration status `'bogus'` is **written** to the stored order and
the response is not a 400 `ValidationError`. -/
theorem c5_invalid_status_written :
    Mongo.orderStatusEnum.contains "bogus" = false ∧
    (OrderController.updateOrderStatus 1 "bogus" none none 99
        [sampleOrder]).1.map (fun o => o.orderStatus) = ["bogus"] ∧
    (OrderController.updateOrderStatus 1 "bogus" none none 99
        [sampleOrder]).2.status ≠ 400 := by
  refine ⟨by decide, rfl, by decide⟩

/-- C5 (amended): the PATCH handler of the embedded server behaves as
claimed — an out-of-enumeration status yields 400 and mutates nothing, an
unresolved id yields 404 and mutates nothing; the Mongoose controller
returns 404 without mutation for an unknown id, but performs **no** status
validation: any status string is written unchanged to an existing order. -/
theorem c5_status_update_errors :
    (∀ (orderId : ℕ) (status : String) (tr notes : Option String) (now : ℕ)
        (st : List Mongo.MOrder),
      Mongo.orderStatusEnum.contains status = false →
      MongoApp.patchStatus orderId status tr notes now st =
        (st,
         ⟨400, false,
          some "Invalid status. Must be one of: pending, paid, processing, fulfilled, cancelled, shipped, delivered",
          none⟩)) ∧
    (∀ (orderId : ℕ) (status : String) (tr notes : Option String) (now : ℕ)
        (st : List Mongo.MOrder),
      Mongo.orderStatusEnum.contains status = true →
      (∀ o ∈ st, o.oid ≠ orderId) →
      MongoApp.patchStatus orderId status tr notes now st =
        (st, ⟨404, false, some "Order not found", none⟩)) ∧
    (∀ (orderId : ℕ) (status : String) (tr notes : Option String) (now : ℕ)
        (st : List Mongo.MOrder),
      (∀ o ∈ st, o.oid ≠ orderId) →
      OrderController.updateOrderStatus orderId status tr notes now st =
        (st, ⟨404, none, some "Order not found", none⟩)) ∧
    (∀ (o : Mongo.MOrder) (rest : List Mongo.MOrder) (orderId : ℕ)
        (status : String) (tr notes : Option String) (now : ℕ),
      o.oid = orderId →
      (OrderController.updateOrderStatus orderId status tr notes now (o :: rest)).1 =
        Mongo.applyStatusPatch (Mongo.mkStatusPatch status tr notes now) o :: rest ∧
      (Mongo.applyStatusPatch (Mongo.mkStatusPatch status tr notes now)
          o).orderStatus = status) := by
  refine ⟨?_, ?_, ?_, ?_⟩
  · intro orderId status tr notes now st h
    have h' : status ∉ Mongo.orderStatusEnum := by simpa using h
    simp [MongoApp.patchStatus, h']
  · intro orderId status tr notes now st h hno
    have h' : status ∈ Mongo.orderStatusEnum := by simpa using h
    have hnf := updateById_not_found orderId
      (Mongo.applyStatusPatch (Mongo.mkStatusPatch status tr notes now)) st hno
    simp [MongoApp.patchStatus, h', hnf]
  · intro orderId status tr notes now st hno
    have hnf := updateById_not_found orderId
      (Mongo.applyStatusPatch (Mongo.mkStatusPatch status tr notes now)) st hno
    simp [OrderController.updateOrderStatus, hnf]
  · intro o rest orderId status tr notes now ho
    exact ⟨by simp [OrderController.updateOrderStatus, Mongo.updateById, ho], rfl⟩

/-- Witness for the amended C5: `'bogus'` is turned away (400, store
untouched) by the PATCH handler; id `42` resolves to nothing in a
one-order store (404, store untouched, both variants); the controller
writes `'shipped'` straight onto the order with id `1`. -/
theorem c5_status_update_errors_witness :
    (Mongo.orderStatusEnum.contains "bogus" = false ∧
     MongoApp.patchStatus 1 "bogus" none none 9 [sampleOrder] =
       ([sampleOrder],
        ⟨400, false,
         some "Invalid status. Must be one of: pending, paid, processing, fulfilled, cancelled, shipped, delivered",
         none⟩)) ∧
    (Mongo.orderStatusEnum.contains "shipped" = true ∧
     MongoApp.patchStatus 42 "shipped" none none 9 [sampleOrder] =
       ([sampleOrder], ⟨404, false, some "Order not found", none⟩)) ∧
    (OrderController.updateOrderStatus 42 "shipped" none none 9 [sampleOrder] =
      ([sampleOrder], ⟨404, none, some "Order not found", none⟩)) ∧
    ((OrderController.updateOrderStatus 1 "shipped" none none 9 [sampleOrder]).1 =
      Mongo.applyStatusPatch (Mongo.mkStatusPatch "shipped" none none 9)
        sampleOrder :: [] ∧
     (Mongo.applyStatusPatch (Mongo.mkStatusPatch "shipped" none none 9)
        sampleOrder).orderStatus = "shipped") :=
  ⟨⟨by decide, c5_status_update_errors.1 1 "bogus" none none 9 [sampleOrder]
      (by decide)⟩,
   ⟨by decide, c5_status_update_errors.2.1 42 "shipped" none none 9 [sampleOrder]
      (by decide) (by decide)⟩,
   c5_status_update_errors.2.2.1 42 "shipped" none none 9 [sampleOrder] (by decide),
   c5_status_update_errors.2.2.2 sampleOrder [] 1 "shipped" none none 9 (by decide)⟩

/-- Helper for C9: whenever `src/server.js` issues a charge, its
idempotency key is exactly `'order-' + Date.now()` — a function of the
wall clock alone. -/
theorem postOrders_key (now : ℕ) (req : FileServer.FRequest)
    (gw : MH.GatewayOutcome) (e : Bool) (st : FileServer.FileState)
    (c : MH.GwCall) (hc : (FileServer.postOrders now req gw e st).2.1 = some c) :
    c.idempotencyKey = "order-" ++ Nat.repr now := by
  unfold FileServer.postOrders at hc
  by_cases h : MH.truthyStr req.paymentToken
  · simp only [h, Bool.not_true, Bool.false_eq_true, if_false] at hc
    cases gw with
    | err msg det =>
      simp only [Option.some.injEq] at hc
      rw [← hc]
    | ok pid oref s =>
      simp only [Option.some.injEq] at hc
      rw [← hc]
  · simp [h] at hc

/-- C8 counterexample: in the Mongoose controller a fully successful
checkout (gateway `COMPLETED`, document saves) still answers HTTP **500**:
the awaited notification dispatch fails (`sendOrderConfirmationEmails` is
not in scope) and that failure fails the primary response — while the
persisted order stays in the store. -/
theorem c8_dispatch_failure_fails_response :
    (OrderController.createOrder ocReqValid (.ok "p" none "COMPLETED") "k1" "MHD-8"
        8 8 []).1.length = 1 ∧
    (OrderController.createOrder ocReqValid (.ok "p" none "COMPLETED") "k1" "MHD-8"
        8 8 []).2.2 =
      some ⟨500, some false, some "Error creating order",
        some OrderController.confirmationEmailError⟩ := by
  exact ⟨by decide, rfl⟩

/-- C8 (amended): in `src/server.js` the confirmation dispatch is issued
without `await` and its own failures are caught, so the handler's state and
response are independent of the dispatch outcome; in the Mongoose
controller the dispatch *is* awaited and always fails (the email functions
are not in scope), so a fully successful creation or status update answers
500 — though the persisted write is not rolled back. -/
theorem c8_notification_effects :
    (∀ (now : ℕ) (req : FileServer.FRequest) (gw : MH.GatewayOutcome)
        (st : FileServer.FileState) (e₁ e₂ : Bool),
      FileServer.postOrders now req gw e₁ st = FileServer.postOrders now req gw e₂ st) ∧
    (∀ (req : OrderController.CreateReq) (c : Mongo.MCustomerInfo)
        (its : List Mongo.MItem) (pid : String) (oref : Option String)
        (idemKey orderNum : String) (newOid now : ℕ) (st : List Mongo.MOrder),
      req.customerInfo = some c → c.valid = true →
      req.items = some its → its.all Mongo.MItem.valid = true →
      req.totalAmount.isSome = true →
      orderNum ≠ "" → st.any (fun o => o.orderNumber == orderNum) = false →
      pid ≠ "" →
      ∃ o : Mongo.MOrder,
        (OrderController.createOrder req (.ok pid oref "COMPLETED") idemKey orderNum
            newOid now st).1 = st ++ [o] ∧
        (OrderController.createOrder req (.ok pid oref "COMPLETED") idemKey orderNum
            newOid now st).2.2 =
          some ⟨500, some false, some "Error creating order",
            some OrderController.confirmationEmailError⟩) ∧
    (∀ (o : Mongo.MOrder) (rest : List Mongo.MOrder) (orderId : ℕ)
        (status : String) (tr notes : Option String) (now : ℕ),
      o.oid = orderId →
      (OrderController.updateOrderStatus orderId status tr notes now (o :: rest)).1 =
        Mongo.applyStatusPatch (Mongo.mkStatusPatch status tr notes now) o :: rest ∧
      (OrderController.updateOrderStatus orderId status tr notes now (o :: rest)).2 =
        ⟨500, some false, some "Error updating order status",
          some OrderController.statusEmailError⟩) := by
  refine ⟨?_, ?_, ?_⟩
  · intro now req gw st e₁ e₂
    rfl
  · intro req c its pid oref idemKey orderNum newOid now st hci hc hit hits ht hn
      hfresh hpid
    have hpe : pid.isEmpty = false := isEmpty_false_of_ne hpid
    have hne : orderNum.isEmpty = false := isEmpty_false_of_ne hn
    have h1 : Mongo.orderStatusEnum.contains "paid" = true := by decide
    have h2 : Mongo.paymentStatusEnum.contains "paid" = true := by decide
    simp +decide [OrderController.createOrder, hci, hit, ht, Mongo.mongoCreate,
      Mongo.MOrder.validDoc, Mongo.MPaymentInfo.valid, MH.truthyStr,
      hpe, hne, hc, hits, h1, h2, hfresh]
  · intro o rest orderId status tr notes now ho
    constructor <;> simp [OrderController.updateOrderStatus, Mongo.updateById, ho]

/-- Witness for the amended C8: the `src/server.js` result is literally the
same for a succeeding and a failing dispatch; the controller's fully
successful creation and status update both persist their write and both
answer 500. -/
theorem c8_notification_effects_witness :
    (FileServer.postOrders 8 fReqValid (.ok "p" none "COMPLETED") true ⟨[], 1⟩ =
      FileServer.postOrders 8 fReqValid (.ok "p" none "COMPLETED") false ⟨[], 1⟩) ∧
    (∃ o : Mongo.MOrder,
      (OrderController.createOrder ocReqValid (.ok "p" none "COMPLETED") "k2"
          "MHD-88" 88 88 []).1 = [] ++ [o] ∧
      (OrderController.createOrder ocReqValid (.ok "p" none "COMPLETED") "k2"
          "MHD-88" 88 88 []).2.2 =
        some ⟨500, some false, some "Error creating order",
          some OrderController.confirmationEmailError⟩) ∧
    ((OrderController.updateOrderStatus 1 "processing" none none 8
        [sampleOrder]).1 =
      Mongo.applyStatusPatch (Mongo.mkStatusPatch "processing" none none 8)
        sampleOrder :: [] ∧
     (OrderController.updateOrderStatus 1 "processing" none none 8
        [sampleOrder]).2 =
      ⟨500, some false, some "Error updating order status",
        some OrderController.statusEmailError⟩) :=
  ⟨c8_notification_effects.1 8 fReqValid (.ok "p" none "COMPLETED") ⟨[], 1⟩ true
     false,
   c8_notification_effects.2.1 ocReqValid sampleCustomer [sampleItem] "p" none "k2"
     "MHD-88" 88 88 [] (by decide) (by decide) (by decide) (by decide) (by decide)
     (by decide) (by decide) (by decide),
   c8_notification_effects.2.2 sampleOrder [] 1 "processing" none none 8 (by decide)⟩

/-- C9 counterexample: two *distinct* checkout attempts (different bodies)
processed in the same wall-clock millisecond are given the **same**
idempotency key by `src/server.js` — the key is `'order-' + Date.now()`,
not fresh per attempt. -/
theorem c9_same_millisecond_key_collision :
    fReqValid ≠ fReqValid2 ∧
    (FileServer.postOrders 1700000000000 fReqValid (.ok "p" none "COMPLETED") true
        ⟨[], 1⟩).2.1.map (fun c => c.idempotencyKey) =
      (FileServer.postOrders 1700000000000 fReqValid2 (.err "declined" []) true
          ⟨[], 5⟩).2.1.map (fun c => c.idempotencyKey) := by
  exact ⟨by decide, rfl⟩

/-- C9 (amended): the idempotency key `src/server.js` hands to the gateway
is `'order-' + Date.now()` — a function of the wall-clock millisecond
alone.  Any two charges issued in the same millisecond carry the same key,
whatever their request bodies, states or outcomes; freshness per distinct
attempt is therefore not guaranteed. -/
theorem c9_idempotency_key_clock_only (now : ℕ)
    (req₁ req₂ : FileServer.FRequest) (gw₁ gw₂ : MH.GatewayOutcome)
    (e₁ e₂ : Bool) (st₁ st₂ : FileServer.FileState) (c₁ c₂ : MH.GwCall)
    (h₁ : (FileServer.postOrders now req₁ gw₁ e₁ st₁).2.1 = some c₁)
    (h₂ : (FileServer.postOrders now req₂ gw₂ e₂ st₂).2.1 = some c₂) :
    c₁.idempotencyKey = c₂.idempotencyKey ∧
    c₁.idempotencyKey = "order-" ++ Nat.repr now := by
  have k₁ := postOrders_key now req₁ gw₁ e₁ st₁ c₁ h₁
  have k₂ := postOrders_key now req₂ gw₂ e₂ st₂ c₂ h₂
  exact ⟨k₁.trans k₂.symm, k₁⟩

/-- Witness for the amended C9: the two distinct millisecond-1000 attempts
of the counterexample share the key `order-1000`. -/
theorem c9_idempotency_key_clock_only_witness :
    (FileServer.postOrders 1000 fReqValid (.ok "p" none "COMPLETED") true
        ⟨[], 1⟩).2.1 = some c9call1 ∧
    (FileServer.postOrders 1000 fReqValid2 (.err "declined" []) true
        ⟨[], 5⟩).2.1 = some c9call2 ∧
    c9call1.idempotencyKey = c9call2.idempotencyKey ∧
    c9call1.idempotencyKey = "order-" ++ Nat.repr 1000 := by
  refine ⟨rfl, rfl, ?_⟩
  exact c9_idempotency_key_clock_only 1000 fReqValid fReqValid2
    (.ok "p" none "COMPLETED") (.err "declined" []) true true ⟨[], 1⟩ ⟨[], 5⟩
    c9call1 c9call2 rfl rfl

/-- A nonnegative-integer `JsNum` denotes exactly its natural value. -/
theorem asNat?_natCast (n : ℕ) : MH.JsNum.asNat? (.num (n : ℚ)) = some n := by
  simp [MH.JsNum.asNat?, Rat.den_natCast, Rat.num_natCast]

/-- A stored scan returns at most `lim` documents. -/
theorem mongoFind_length_le (statusQ : Option String) (skip lim : ℕ)
    (st : List Mongo.MOrder) :
    (Mongo.mongoFind statusQ skip lim st).length ≤ lim := by
  unfold Mongo.mongoFind
  exact List.length_take_le _ _

/-- The page a stored scan returns is sorted by `createdAt` descending. -/
theorem mongoFind_sorted (statusQ : Option String) (skip lim : ℕ)
    (st : List Mongo.MOrder) :
    List.Sorted Mongo.createdGE (Mongo.mongoFind statusQ skip lim st) := by
  have hs : List.Sorted Mongo.createdGE
      (Mongo.sortDesc (st.filter (Mongo.matchesFilter statusQ))) :=
    List.sorted_insertionSort Mongo.createdGE _
  exact List.Pairwise.sublist
    ((List.take_sublist _ _).trans (List.drop_sublist _ _)) hs

/-- C7 counterexample: a malformed `page` parameter is **not** clamped to
the default — `page=abc` coerces to `NaN`, so the handler hands
`skip = (page-1)*limit = NaN` to the store instead of the default offset
`(1-1)*10 = 0`, and no well-defined page is produced. -/
theorem c7_malformed_page_not_clamped :
    (MongoApp.getOrders none (some "abc") none []).1.skipVal = MH.JsNum.nan ∧
    MH.JsNum.nan ≠ MH.JsNum.num 0 ∧
    (MongoApp.getOrders none (some "abc") none []).2 = none := by
  refine ⟨by decide, by decide, by decide⟩

/-- C7 (amended): for pagination values that are absent (defaulting to
page 1, limit 10) or coerce to naturals `p ≥ 1`, `l ≥ 1`, the handler
returns the page of the `createdAt`-descending ordering starting at offset
`(p-1)*l` with at most `l` orders, the total matching count, and
`totalPages = ⌈total / l⌉`; a present non-numeric parameter is *not*
clamped to a default — it propagates `NaN` into the issued skip/limit. -/
theorem c7_pagination (statusQ pageQ limitQ : Option String) (p l : ℕ)
    (hp : MongoApp.pageNumOf pageQ 1 = .num p)
    (hl : MongoApp.pageNumOf limitQ 10 = .num l)
    (hp1 : 1 ≤ p) (hl1 : 1 ≤ l) (st : List Mongo.MOrder) :
    ∃ pl : MongoApp.PagePayload,
      (MongoApp.getOrders statusQ pageQ limitQ st).2 = some pl ∧
      pl.orders = Mongo.mongoFind statusQ ((p - 1) * l) l st ∧
      pl.orders.length ≤ l ∧
      List.Sorted Mongo.createdGE pl.orders ∧
      pl.total = (st.filter (Mongo.matchesFilter statusQ)).length ∧
      pl.totalPages =
        .num ((⌈((st.filter (Mongo.matchesFilter statusQ)).length : ℚ) / (l : ℚ)⌉ : ℤ) : ℚ) := by
  have e1 : ((p : ℚ) - 1) * (l : ℚ) = (((p - 1) * l : ℕ) : ℚ) := by
    push_cast [Nat.cast_sub hp1]
    ring
  have e2 : (l : ℚ) * 1 = ((l : ℕ) : ℚ) := mul_one _
  have hl0 : ((l : ℚ)) ≠ 0 := Nat.cast_ne_zero.mpr (by omega)
  have e3 : ∀ t : ℕ, MH.jsCeilDivNat t (.num (l : ℚ)) =
      .num ((⌈(t : ℚ) / (l : ℚ)⌉ : ℤ) : ℚ) := by
    intro t
    simp [MH.jsCeilDivNat, hl0]
  unfold MongoApp.getOrders
  rw [hp, hl]
  simp only [MH.jsSub, MH.jsMul]
  rw [e1, e2, asNat?_natCast, asNat?_natCast, e3]
  exact ⟨_, rfl, rfl, mongoFind_length_le statusQ ((p - 1) * l) l st,
    mongoFind_sorted statusQ ((p - 1) * l) l st, rfl, rfl⟩

/-- Witness for the amended C7: `page=2&limit=2` over a three-order store
produces a well-defined second page — at most two orders, sorted by
`createdAt` descending, with the total of `3` and `totalPages = ⌈3/2⌉`. -/
theorem c7_pagination_witness :
    (MongoApp.pageNumOf (some "2") 1 = .num ((2 : ℕ) : ℚ) ∧
     MongoApp.pageNumOf (some "2") 10 = .num ((2 : ℕ) : ℚ) ∧
     1 ≤ (2 : ℕ)) ∧
    ∃ pl : MongoApp.PagePayload,
      (MongoApp.getOrders none (some "2") (some "2")
          [sampleOrder, sampleOrder3, sampleOrder2]).2 = some pl ∧
      pl.orders = Mongo.mongoFind none ((2 - 1) * 2) 2
        [sampleOrder, sampleOrder3, sampleOrder2] ∧
      pl.orders.length ≤ 2 ∧
      List.Sorted Mongo.createdGE pl.orders ∧
      pl.total = ([sampleOrder, sampleOrder3, sampleOrder2].filter
        (Mongo.matchesFilter none)).length ∧
      pl.totalPages =
        .num ((⌈(([sampleOrder, sampleOrder3, sampleOrder2].filter
          (Mongo.matchesFilter none)).length : ℚ) / ((2 : ℕ) : ℚ)⌉ : ℤ) : ℚ) :=
  ⟨⟨by decide, by decide, by decide⟩,
   c7_pagination none (some "2") (some "2") 2 2 (by decide) (by decide) (by decide)
     (by decide) [sampleOrder, sampleOrder3, sampleOrder2]⟩
